/-
  Verification of leo-git-statistics against its natural-language
  specification.

  Shallow embedding of the Python source:
  - Python strings are Lean `String`; Python's lexicographic string
    comparison (by code points) is embedded as `lex_lt` on the
    underlying character lists, and `str.lower` / `str.strip` /
    slicing as character-list operations, so that everything
    evaluates by `decide`.
  - Python ints are `Int` (counts, thresholds); sizes from the GitHub
    API are `Nat`.
  - Python dict lookups with defaults are embedded as record fields
    or association lists, as noted at each definition.
-/
import Mathlib

namespace LeoGitStats

/-! ## Python string primitives

Python compares strings lexicographically by code point.  Lean's
built-in `String` order does not reduce in the kernel, so the
comparison is embedded directly on the character lists. -/

/-- Lexicographic comparison of character lists by code point,
mirroring Python's `str.__lt__`. -/
def lex_lt : List Char → List Char → Bool
  | [], [] => false
  | [], _ :: _ => true
  | _ :: _, [] => false
  | a :: as, b :: bs => if a < b then true else if b < a then false else lex_lt as bs

/-- Python `a < b` on strings. -/
def py_str_lt (a b : String) : Bool := lex_lt a.data b.data

/-- Python `a <= b` on strings: the order is total, so `a <= b`
is the negation of `b < a`. -/
def py_str_le (a b : String) : Bool := !(py_str_lt b a)

/-- Python `s.lower()` restricted to ASCII letters (GitHub usernames
and the strings compared by the code are ASCII). -/
def py_lower (s : String) : String := ⟨s.data.map Char.toLower⟩

/-- Python `s.strip()`: remove leading and trailing whitespace. -/
def py_strip (s : String) : String :=
  ⟨((s.data.dropWhile Char.isWhitespace).reverse.dropWhile Char.isWhitespace).reverse⟩

/-- Python `s[:n]` on strings. -/
def py_slice_to (n : Nat) (s : String) : String := ⟨s.data.take n⟩

/-! ## Python values

A small universe of Python/JSON scalars, enough for the dictionary
values the embedded code stores and compares.  `pyNone` is Python's
`None` (JSON `null`). -/

/-- Python values stored in caches, snapshots and webhook conditions. -/
inductive PyVal where
  | pyNone
  | pyBool (b : Bool)
  | pyInt (n : Int)
  | pyStr (s : String)
deriving DecidableEq, Repr

/-- Python dictionaries with string keys, as association lists
(first binding of a key wins on lookup). -/
abbrev PyDict := List (String × PyVal)

/-- Python `d[k] = v`: replace the first binding of `k`, or append a
new binding when `k` is absent. -/
def dict_set (d : PyDict) (k : String) (v : PyVal) : PyDict :=
  match d with
  | [] => [(k, v)]
  | (k', v') :: rest => if k' = k then (k, v) :: rest else (k', v') :: dict_set rest k v

/-! ## Contribution streaks

Embedding of the streak computation shared verbatim by
`ContributionTracker.fetch_contribution_calendar`
(src/core/contribution_tracker.py lines 138-192) and
`StatsCollector._get_contribution_calendar`
(src/core/stats_collector.py lines 758-804).

`today` and `yesterday` are the run-time values of
`date.today().strftime("%Y-%m-%d")` and
`(date.today() - timedelta(1)).strftime("%Y-%m-%d")`, passed as
parameters. -/

/-- One entry of the flattened contribution calendar:
`{"date": ..., "count": ...}`. -/
structure Day where
  date : String
  count : Int
deriving DecidableEq, Repr

/-- The loop state of the streak pass: the local variables
`current_streak`, `longest_streak`, `temp_streak` and the five
date-range trackers of the Python loop. -/
structure StreakState where
  current_streak : Nat
  longest_streak : Nat
  temp_streak : Nat
  current_streak_start : Option String
  current_streak_end : Option String
  longest_streak_start : Option String
  longest_streak_end : Option String
  temp_streak_start : Option String
deriving DecidableEq, Repr

/-- The initial loop state: all counters 0, all trackers `None`. -/
def StreakState.init : StreakState :=
  ⟨0, 0, 0, none, none, none, none, none⟩

/-- The body of `for i, day in enumerate(all_days)` in
`fetch_contribution_calendar`.  `isLast` is `i == len(all_days) - 1`. -/
def streak_step (today : String) (isLast : Bool) (s : StreakState) (d : Day) : StreakState :=
  if 0 < d.count then
    let tempStart := if s.temp_streak = 0 then some d.date else s.temp_streak_start
    let temp := s.temp_streak + 1
    let s1 : StreakState :=
      if s.longest_streak < temp then
        { s with temp_streak := temp, temp_streak_start := tempStart,
                 longest_streak := temp, longest_streak_start := tempStart,
                 longest_streak_end := some d.date }
      else
        { s with temp_streak := temp, temp_streak_start := tempStart }
    if d.date = today ∨ isLast then
      { s1 with current_streak := s1.temp_streak,
                current_streak_start := s1.temp_streak_start,
                current_streak_end := some d.date }
    else s1
  else
    if ¬ isLast ∨ d.date = today then
      { s with temp_streak := 0, temp_streak_start := none }
    else s

/-- The whole `for` loop: steps through the list, flagging the final
element (`i == len(all_days) - 1`). -/
def streak_loop (today : String) : List Day → StreakState → StreakState
  | [], s => s
  | [d], s => streak_step today true s d
  | d :: d2 :: rest, s => streak_loop today (d2 :: rest) (streak_step today false s d)

/-- `all_days.sort(key=lambda x: x["date"])`: Python's sort is stable,
embedded as the stable `List.mergeSort` keyed by the date string. -/
def sort_days (days : List Day) : List Day :=
  days.mergeSort (fun a b => py_str_le a.date b.date)

/-- The streak computation of `fetch_contribution_calendar`: sort the
flattened days, run the loop from the zero state, then apply the final
reset `if all_days and all_days[-1]["date"] < yesterday`. -/
def fetch_streaks (today yesterday : String) (days : List Day) : StreakState :=
  let all_days := sort_days days
  let s := streak_loop today all_days StreakState.init
  match all_days.getLast? with
  | some d =>
      if py_str_lt d.date yesterday then
        { s with current_streak := 0, current_streak_start := none,
                 current_streak_end := none }
      else s
  | none => s

/-! ### Helper lemmas about the string order and lists -/

/-- The embedded Python string order is irreflexive. -/
theorem lex_lt_irrefl : ∀ l : List Char, lex_lt l l = false := by
  intro l
  induction l with
  | nil => rfl
  | cons a as ih => simp [lex_lt, ih]

/-- The embedded Python string order is asymmetric. -/
theorem lex_lt_asymm : ∀ a b : List Char, lex_lt a b = true → lex_lt b a = false := by
  intro a
  induction a with
  | nil => intro b _; cases b <;> rfl
  | cons x xs ih =>
      intro b h
      cases b with
      | nil => simp [lex_lt] at h
      | cons y ys =>
          simp only [lex_lt] at h ⊢
          by_cases hxy : x < y
          · simp only [hxy, if_true] at h ⊢
            have : ¬ y < x := lt_asymm hxy
            simp [this]
          · by_cases hyx : y < x
            · simp [hxy, hyx] at h
            · simp only [hxy, hyx, if_false] at h ⊢
              exact ih ys h

/-- Strict order on dates implies the non-strict sort key. -/
theorem py_str_le_of_lt {a b : String} (h : py_str_lt a b = true) : py_str_le a b = true := by
  unfold py_str_le py_str_lt at *
  simp [lex_lt_asymm _ _ h]

/-- `py_str_lt` never relates a string to itself. -/
theorem py_str_lt_ne {a b : String} (h : py_str_lt a b = true) : a ≠ b := by
  intro he
  subst he
  rw [py_str_lt, lex_lt_irrefl] at h
  exact Bool.false_ne_true h

/-- The last element of a list is a member. -/
theorem getLast?_mem {α : Type} {l : List α} {x : α} (h : l.getLast? = some x) : x ∈ l := by
  rcases List.getLast?_eq_some_iff.mp h with ⟨ys, rfl⟩
  simp

/-- In a `Pairwise`-sorted list, every element before the last is
related to the last. -/
theorem pairwise_rel_getLast {α : Type} {R : α → α → Prop} :
    ∀ {l : List α} {x : α}, l.Pairwise R → l.getLast? = some x →
      ∀ d ∈ l.dropLast, R d x := by
  intro l
  induction l with
  | nil => intro x _ h; simp at h
  | cons a tl ih =>
      intro x hp hl d hd
      cases tl with
      | nil => simp at hd
      | cons b tl' =>
          rw [List.getLast?_cons_cons] at hl
          rw [List.dropLast_cons₂] at hd
          rcases List.pairwise_cons.mp hp with ⟨ha, htl⟩
          rcases List.mem_cons.mp hd with rfl | hd'
          · exact ha x (getLast?_mem hl)
          · exact ih htl hl d hd'

/-! ### Invariant: the longest streak bounds every other counter -/

/-- The loop invariant for C8: `current_streak` and `temp_streak`
never exceed `longest_streak`. -/
def StreakInv (s : StreakState) : Prop :=
  s.current_streak ≤ s.longest_streak ∧ s.temp_streak ≤ s.longest_streak

/-- One iteration of the streak loop preserves the invariant. -/
theorem streak_step_inv (today : String) (isLast : Bool) (s : StreakState) (d : Day)
    (h : StreakInv s) : StreakInv (streak_step today isLast s d) := by
  obtain ⟨h1, h2⟩ := h
  simp only [streak_step, StreakInv]
  split_ifs <;> simp_all <;> omega

/-- The whole loop preserves the invariant. -/
theorem streak_loop_inv (today : String) :
    ∀ (l : List Day) (s : StreakState), StreakInv s → StreakInv (streak_loop today l s) := by
  intro l
  induction l with
  | nil => intro s h; exact h
  | cons d tl ih =>
      intro s h
      cases tl with
      | nil => exact streak_step_inv today true s d h
      | cons d2 rest => exact ih (streak_step today false s d) (streak_step_inv today false s d h)

/-- Claim C8: for every contribution calendar (any finite list of
days, any counts, any relation of the last date to today), the
computed longest streak is greater than or equal to the computed
current streak. -/
theorem c8_longest_ge_current (today yesterday : String) (days : List Day) :
    (fetch_streaks today yesterday days).current_streak ≤
      (fetch_streaks today yesterday days).longest_streak := by
  simp only [fetch_streaks]
  have h := streak_loop_inv today (sort_days days) StreakState.init ⟨le_refl 0, le_refl 0⟩
  split
  · split_ifs
    · simp
    · exact h.1
  · exact h.1

/-! ### C1: current streak when today's count is zero -/

/-- If a zero-count day is stepped over, or a positive day whose date
is not `today` and which is not the final entry, `current_streak` is
left untouched. -/
theorem streak_step_current_of_ne (today : String) (s : StreakState) (d : Day)
    (h : 0 < d.count → d.date ≠ today) :
    (streak_step today false s d).current_streak = s.current_streak := by
  simp only [streak_step]
  split_ifs <;> simp_all

/-- If no positive-count day is dated `today` before the last entry
and the last entry has a non-positive count, the loop never assigns
`current_streak`. -/
theorem streak_loop_current_eq (today : String) :
    ∀ (l : List Day) (s : StreakState),
      (∀ d ∈ l.dropLast, 0 < d.count → d.date ≠ today) →
      (∀ d, l.getLast? = some d → ¬ 0 < d.count) →
      (streak_loop today l s).current_streak = s.current_streak := by
  intro l
  induction l with
  | nil => intro s _ _; rfl
  | cons d tl ih =>
      intro s hdrop hlast
      cases tl with
      | nil =>
          have hd : ¬ 0 < d.count := hlast d rfl
          show (streak_step today true s d).current_streak = s.current_streak
          unfold streak_step
          split
          · exact absurd (by assumption) hd
          · split <;> rfl
      | cons d2 rest =>
          show (streak_loop today (d2 :: rest) (streak_step today false s d)).current_streak
                = s.current_streak
          have hstep := streak_step_current_of_ne today s d
            (hdrop d (by rw [List.dropLast_cons₂]; exact List.mem_cons_self d _))
          rw [ih (streak_step today false s d)
            (fun x hx => hdrop x (by rw [List.dropLast_cons₂]; exact List.mem_cons_of_mem d hx))
            (fun x hx => hlast x (by rw [List.getLast?_cons_cons]; exact hx)), hstep]

/-- Claim C1 (amended): for every strictly date-sorted calendar whose
most recent day is `today` with count 0, the computed current streak
is 0 (not the length of the preceding positive run); and for every
nonempty calendar all of whose days are dated strictly before
`yesterday`, the computed current streak is 0. -/
theorem c1_current_streak_policy :
    (∀ (today yesterday : String) (days : List Day),
        days.Pairwise (fun a b => py_str_lt a.date b.date = true) →
        days.getLast? = some ⟨today, 0⟩ →
        (fetch_streaks today yesterday days).current_streak = 0)
    ∧ (∀ (today yesterday : String) (days : List Day),
        days ≠ [] →
        (∀ d ∈ days, py_str_lt d.date yesterday = true) →
        (fetch_streaks today yesterday days).current_streak = 0) := by
  constructor
  · intro today yesterday days hsorted hlast
    have hsort_eq : sort_days days = days :=
      List.mergeSort_of_sorted (hsorted.imp fun h => py_str_le_of_lt h)
    have hloop := streak_loop_current_eq today days StreakState.init
      (fun d hd hc => by
        have hrel := pairwise_rel_getLast hsorted hlast d hd
        intro he
        exact py_str_lt_ne hrel (by rw [he]))
      (fun d hd => by
        rw [hlast] at hd
        injection hd with h
        rw [← h]
        simp)
    simp only [fetch_streaks]
    rw [hsort_eq, hlast]
    simp only []
    split_ifs
    · rfl
    · simpa using hloop
  · intro today yesterday days hne hbefore
    have hperm := List.mergeSort_perm days (fun a b => py_str_le a.date b.date)
    have hne' : sort_days days ≠ [] := by
      intro h
      apply hne
      have := hperm.length_eq
      rw [show sort_days days = days.mergeSort (fun a b => py_str_le a.date b.date) from rfl] at h
      rw [h] at this
      exact List.length_eq_zero.mp this.symm
    simp only [fetch_streaks]
    split
    · rename_i d heq
      have hd_mem : d ∈ days := hperm.mem_iff.mp (getLast?_mem heq)
      simp [hbefore d hd_mem]
    · rename_i heq
      have := List.getLast?_isSome.mpr hne'
      rw [heq] at this
      simp at this

/-- Witness for C1's amended theorem: both parts applied at concrete
calendars whose hypotheses hold by evaluation. -/
theorem c1_current_streak_policy_witness :
    (fetch_streaks "2026-10-12" "2026-10-11"
        [⟨"2026-10-11", 1⟩, ⟨"2026-10-12", 0⟩]).current_streak = 0
    ∧ (fetch_streaks "2026-10-12" "2026-10-11"
        [⟨"2026-09-10", 1⟩, ⟨"2026-09-11", 1⟩]).current_streak = 0 :=
  ⟨c1_current_streak_policy.1 "2026-10-12" "2026-10-11" _ (by decide) (by decide),
   c1_current_streak_policy.2 "2026-10-12" "2026-10-11" _ (by decide) (by decide)⟩

/-- The calendar refuting C1 as stated: strictly sorted, the most
recent day is today (2026-10-12) with count 0, and the immediately
preceding maximal run of positive days has length 2. -/
def c1_days : List Day := [⟨"2026-10-10", 1⟩, ⟨"2026-10-11", 1⟩, ⟨"2026-10-12", 0⟩]

/-- Counterexample to C1 as stated: on `c1_days` the claim's
hypotheses hold (sorted; last day is today with count 0; the
preceding maximal positive run has length 2) yet the computed current
streak is 0, not 2. -/
theorem c1_counterexample :
    c1_days.Pairwise (fun a b => py_str_lt a.date b.date = true)
    ∧ c1_days.getLast? = some ⟨"2026-10-12", 0⟩
    ∧ ((c1_days.dropLast.reverse.takeWhile fun d => 0 < d.count).length = 2)
    ∧ (fetch_streaks "2026-10-12" "2026-10-11" c1_days).current_streak = 0
    ∧ (0 : Nat) ≠ 2 := by
  refine ⟨by decide, by decide, by decide, ?_, by decide⟩
  have hsort_eq : sort_days c1_days = c1_days := List.mergeSort_of_sorted (by decide)
  unfold fetch_streaks
  rw [hsort_eq]
  decide

/-! ## Webhook condition evaluation

Embedding of `api/services/notification_dispatcher.py`.  Snapshots
are Python dicts of integer statistics; `snapshot.get(field, 0)` is
an association-list lookup with default 0. -/

/-- A statistics snapshot: field name to integer value, with Python's
`dict.get(field, 0)` semantics. -/
abbrev Snapshot := List (String × Int)

/-- `snapshot.get(field, 0)`. -/
def snap_get (d : Snapshot) (k : String) : Int :=
  match d.find? (fun p => p.1 == k) with
  | some p => p.2
  | none => 0

/-- `_check_threshold(field, threshold, current, previous)`: Python's
chained comparison `prev_val < threshold <= cur_val`. -/
def _check_threshold (field : String) (threshold : Int)
    (current previous : Snapshot) : Bool :=
  let cur_val := snap_get current field
  let prev_val := snap_get previous field
  decide (prev_val < threshold) && decide (threshold ≤ cur_val)

/-- The webhook `conditions` dict: `conditions.get("stars_threshold")`
(an `int | None`) and the truthiness of the `streak_broken` and
`contributions_record` keys. -/
structure WebhookConditions where
  stars_threshold : Option Int
  streak_broken : Bool
  contributions_record : Bool
deriving DecidableEq, Repr

/-- `evaluate_conditions(conditions, current, previous)`: the list of
triggered event description strings, in evaluation order. -/
def evaluate_conditions (conditions : WebhookConditions)
    (current previous : Snapshot) : List String :=
  let t1 :=
    match conditions.stars_threshold with
    | some n =>
        if _check_threshold "total_stars" n current previous then
          ["Stars crossed " ++ toString n]
        else []
    | none => []
  let t2 :=
    if conditions.streak_broken then
      let prev_streak := snap_get previous "current_streak"
      let cur_streak := snap_get current "current_streak"
      if 0 < prev_streak ∧ cur_streak = 0 then ["Streak broken"] else []
    else []
  let t3 :=
    if conditions.contributions_record then
      let prev_contribs := snap_get previous "total_contributions"
      let cur_contribs := snap_get current "total_contributions"
      if prev_contribs < cur_contribs ∧ 0 < prev_contribs then
        ["New contributions record: " ++ toString cur_contribs]
      else []
    else []
  t1 ++ t2 ++ t3

/-- The previous snapshot refuting C3: 4 stars. -/
def c3_prev : Snapshot := [("total_stars", 4)]

/-- The current snapshot refuting C3: 5 stars. -/
def c3_cur : Snapshot := [("total_stars", 5)]

/-- Counterexample to C3 as stated: with previous = 4 stars and
current = 5 stars, the stars_threshold condition triggers at N = 5
(one event) but not at N − 1 = 4 (no event), because
`prev_val < threshold` fails when the previous value equals N − 1. -/
theorem c3_counterexample :
    (evaluate_conditions ⟨some 5, false, false⟩ c3_cur c3_prev).length = 1
    ∧ (evaluate_conditions ⟨some 4, false, false⟩ c3_cur c3_prev).length = 0 := by
  decide

/-- Claim C3 (amended): if the stars_threshold condition with value N
triggers on (previous, current) and the previous total_stars value is
not exactly N − 1, then the condition with value N − 1 also triggers
on the same two snapshots. -/
theorem c3_stars_threshold_monotone (n : Int) (current previous : Snapshot)
    (h : evaluate_conditions ⟨some n, false, false⟩ current previous ≠ [])
    (hprev : snap_get previous "total_stars" ≠ n - 1) :
    evaluate_conditions ⟨some (n - 1), false, false⟩ current previous ≠ [] := by
  simp only [evaluate_conditions, _check_threshold, if_false, List.append_nil] at h ⊢
  by_cases hc : snap_get previous "total_stars" < n ∧ n ≤ snap_get current "total_stars"
  · have hc' : snap_get previous "total_stars" < n - 1 ∧
        n - 1 ≤ snap_get current "total_stars" := by omega
    simp [hc'.1, hc'.2]
  · exfalso
    apply h
    rcases not_and_or.mp hc with hp | hq
    · simp [not_lt.mp (fun hlt => hp hlt)]
    · simp [hq]

/-- Witness for C3's amended theorem at previous = 3 stars,
current = 5 stars, N = 5. -/
theorem c3_stars_threshold_monotone_witness :
    (evaluate_conditions ⟨some 5, false, false⟩ c3_cur [("total_stars", 3)] ≠ [])
    ∧ (evaluate_conditions ⟨some 4, false, false⟩ c3_cur [("total_stars", 3)] ≠ []) :=
  ⟨by decide, c3_stars_threshold_monotone 5 c3_cur [("total_stars", 3)]
    (by decide) (by decide)⟩

/-! ## Language proportions

Embedding of `RepoStatsCollector._calculate_language_proportions`
(src/core/repo_stats_collector.py lines 244-252; the copy in
src/core/stats_collector.py lines 284-294 is identical).  As C6
requires, the Python float arithmetic `100 * (size / total)` is
carried out in exact rational arithmetic. -/

/-- `sum(v.get("size", 0) for v in self._languages.values())`. -/
def langs_total (languages : List (String × Nat)) : Nat :=
  (languages.map fun p => p.2).sum

/-- `_calculate_language_proportions`: attach to every language its
percentage `100 * size / total`, or `0.0` for every language when the
total byte count is zero. -/
def _calculate_language_proportions (languages : List (String × Nat)) :
    List (String × ℚ) :=
  let total := langs_total languages
  if 0 < total then
    languages.map fun p => (p.1, 100 * ((p.2 : ℚ) / (total : ℚ)))
  else
    languages.map fun p => (p.1, (0 : ℚ))

/-- Claim C6: computed with exact rational arithmetic, the language
proportions sum to 100 when the total byte count is positive, and are
all 0 (summing to 0) when the total byte count is zero. -/
theorem c6_proportions_sum (languages : List (String × Nat)) :
    (0 < langs_total languages →
      ((_calculate_language_proportions languages).map fun p => p.2).sum = 100)
    ∧ (langs_total languages = 0 →
      ((_calculate_language_proportions languages).map fun p => p.2).sum = 0
      ∧ ∀ p ∈ _calculate_language_proportions languages, p.2 = 0) := by
  constructor
  · intro h
    have hT : ((langs_total languages : ℚ)) ≠ 0 :=
      Nat.cast_ne_zero.mpr (Nat.pos_iff_ne_zero.mp h)
    simp only [_calculate_language_proportions, if_pos h, List.map_map]
    have hfun : ((fun p : String × ℚ => p.2) ∘
        fun p : String × Nat => (p.1, 100 * ((p.2 : ℚ) / (langs_total languages : ℚ))))
        = fun p : String × Nat => (100 / (langs_total languages : ℚ)) * (p.2 : ℚ) := by
      funext p
      simp [Function.comp]
      ring
    rw [hfun, List.sum_map_mul_left]
    have hsum : ((languages.map fun p : String × Nat => ((p.2 : ℚ))).sum)
        = ((langs_total languages : ℚ)) := by
      rw [langs_total]
      push_cast
      rw [List.map_map]
      rfl
    rw [hsum, div_mul_cancel₀ _ hT]
  · intro h
    simp only [_calculate_language_proportions, h]
    constructor
    · simp [List.map_map, Function.comp_def, List.map_const', List.sum_replicate]
    · intro p hp
      rcases List.mem_map.mp hp with ⟨q, _, rfl⟩
      rfl

/-- Witness for C6 at a two-language aggregate with positive total and
at a zero-byte aggregate. -/
theorem c6_proportions_sum_witness :
    (0 < langs_total [("Python", 60), ("Lean", 40)]
      ∧ ((_calculate_language_proportions [("Python", 60), ("Lean", 40)]).map
          fun p => p.2).sum = 100)
    ∧ (langs_total [("Python", 0)] = 0
      ∧ ((_calculate_language_proportions [("Python", 0)]).map fun p => p.2).sum = 0) :=
  ⟨⟨by decide, (c6_proportions_sum [("Python", 60), ("Lean", 40)]).1 (by decide)⟩,
   ⟨by decide, ((c6_proportions_sum [("Python", 0)]).2 (by decide)).1⟩⟩

/-! ## Repository filtering and token scope

Embedding of `src/utils/helpers.py` (`to_bool`),
`src/core/repository_filter.py` (`RepositoryFilter`),
`api/deps/token_scope.py` (`resolve_repo_filter`) and the two
`is_repo_type_excluded` predicates of
`src/core/repo_stats_collector.py` (lines 87-103) and
`src/core/stats_collector.py` (lines 127-151). -/

/-- Python `str(val)` on the scalar universe. -/
def py_str_of : PyVal → String
  | .pyNone => "None"
  | .pyBool true => "True"
  | .pyBool false => "False"
  | .pyInt n => toString n
  | .pyStr s => s

/-- `to_bool(val, default=False)` from `src/utils/helpers.py`:
`str(val).strip().lower() == "true"`, with the default for `None`. -/
def to_bool (val : Option PyVal) (default : Bool := false) : Bool :=
  match val with
  | none => default
  | some v => py_lower (py_strip (py_str_of v)) == "true"

/-- The environment variables read by `RepositoryFilter`
(`getenv` returns `None` when unset). -/
structure EnvVars where
  EXCLUDED : Option String
  EXCLUDED_LANGS : Option String
  INCLUDE_FORKED_REPOS : Option String
  EXCLUDE_CONTRIB_REPOS : Option String
  EXCLUDE_ARCHIVE_REPOS : Option String
  EXCLUDE_PRIVATE_REPOS : Option String
  EXCLUDE_PUBLIC_REPOS : Option String
  MORE_REPOS : Option String
  ONLY_INCLUDED : Option String
deriving DecidableEq, Repr

/-- The keyword arguments accepted by `RepositoryFilter.__init__`
(absent key: `kwargs.get` falls back to the environment). -/
structure FilterKwargs where
  exclude_repos : Option String
  exclude_langs : Option String
  include_forked_repos : Option PyVal
  exclude_contrib_repos : Option PyVal
  exclude_archive_repos : Option PyVal
  exclude_private_repos : Option PyVal
  exclude_public_repos : Option PyVal
  manually_added_repos : Option String
  only_included_repos : Option String
deriving DecidableEq, Repr

/-- No keyword arguments: `RepositoryFilter()`. -/
def FilterKwargs.empty : FilterKwargs :=
  ⟨none, none, none, none, none, none, none, none, none⟩

/-- Python `{x.strip() for x in s.split(",")} if s else set()`,
as a list (set membership is all downstream code uses). -/
def parse_csv_set (v : Option String) : List String :=
  match v with
  | none => []
  | some s => if s = "" then [] else (s.splitOn ",").map py_strip

/-- The full `RepositoryFilter` state after `__init__`
(`_init_exclusions`, `_init_type_filters`, `_init_repo_lists`). -/
structure RepositoryFilter where
  exclude_repos : List String
  exclude_langs : List String
  include_forked_repos : Bool
  exclude_contrib_repos : Bool
  exclude_archive_repos : Bool
  exclude_private_repos : Bool
  exclude_public_repos : Bool
  manually_added_repos : List String
  only_included_repos : List String
deriving DecidableEq, Repr

/-- `RepositoryFilter(**kwargs)` under environment `env`. -/
def RepositoryFilter.init (kwargs : FilterKwargs) (env : EnvVars) : RepositoryFilter :=
  { exclude_repos := parse_csv_set (kwargs.exclude_repos <|> env.EXCLUDED)
    exclude_langs := parse_csv_set (kwargs.exclude_langs <|> env.EXCLUDED_LANGS)
    include_forked_repos :=
      to_bool (kwargs.include_forked_repos <|> env.INCLUDE_FORKED_REPOS.map .pyStr)
    exclude_contrib_repos :=
      to_bool (kwargs.exclude_contrib_repos <|> env.EXCLUDE_CONTRIB_REPOS.map .pyStr)
    exclude_archive_repos :=
      to_bool (kwargs.exclude_archive_repos <|> env.EXCLUDE_ARCHIVE_REPOS.map .pyStr)
    exclude_private_repos :=
      to_bool (kwargs.exclude_private_repos <|> env.EXCLUDE_PRIVATE_REPOS.map .pyStr)
    exclude_public_repos :=
      to_bool (kwargs.exclude_public_repos <|> env.EXCLUDE_PUBLIC_REPOS.map .pyStr)
    manually_added_repos := parse_csv_set (kwargs.manually_added_repos <|> env.MORE_REPOS)
    only_included_repos := parse_csv_set (kwargs.only_included_repos <|> env.ONLY_INCLUDED) }

/-- `resolve_repo_filter(user_owns_token=...)` from
`api/deps/token_scope.py`: the owner gets `RepositoryFilter()`, anyone
else gets `RepositoryFilter(exclude_private_repos=True)`. -/
def resolve_repo_filter (user_owns_token : Bool) (env : EnvVars) : RepositoryFilter :=
  if user_owns_token then
    RepositoryFilter.init FilterKwargs.empty env
  else
    RepositoryFilter.init
      { FilterKwargs.empty with exclude_private_repos := some (.pyBool true) } env

/-- Repository metadata as consumed by `is_repo_type_excluded`: the
truthiness of the six dict keys it reads (`private_flag` models the
key named `private`, a Lean keyword). -/
structure RepoData where
  isFork : Bool := false
  fork : Bool := false
  isArchived : Bool := false
  archived : Bool := false
  isPrivate : Bool := false
  private_flag : Bool := false
deriving DecidableEq, Repr

/-- `RepoStatsCollector.is_repo_type_excluded`: the public-repository
clause is `exclude_public_repos and not isPrivate and not private`. -/
def repo_is_repo_type_excluded (filter : RepositoryFilter) (repo_data : RepoData) : Bool :=
  (!filter.include_forked_repos && (repo_data.isFork || repo_data.fork))
  || (filter.exclude_archive_repos && (repo_data.isArchived || repo_data.archived))
  || (filter.exclude_private_repos && (repo_data.isPrivate || repo_data.private_flag))
  || (filter.exclude_public_repos && !repo_data.isPrivate && !repo_data.private_flag)

/-- `StatsCollector.is_repo_type_excluded`: same filter flags, but the
public-repository clause is
`exclude_public_repos and (not isPrivate or not private)`. -/
def stats_is_repo_type_excluded (filter : RepositoryFilter) (repo_data : RepoData) : Bool :=
  (!filter.include_forked_repos && (repo_data.isFork || repo_data.fork))
  || (filter.exclude_archive_repos && (repo_data.isArchived || repo_data.archived))
  || (filter.exclude_private_repos && (repo_data.isPrivate || repo_data.private_flag))
  || (filter.exclude_public_repos && (!repo_data.isPrivate || !repo_data.private_flag))

/-- Claim C5: when the resolved token does not belong to the requested
username, the filter built by `resolve_repo_filter` has
`exclude_private_repos = true` for every environment (in particular
whatever `EXCLUDE_PRIVATE_REPOS` says), and every repository marked
private is excluded by `is_repo_type_excluded`. -/
theorem c5_private_always_excluded (env : EnvVars) (repo_data : RepoData)
    (hpriv : (repo_data.isPrivate || repo_data.private_flag) = true) :
    (resolve_repo_filter false env).exclude_private_repos = true
    ∧ repo_is_repo_type_excluded (resolve_repo_filter false env) repo_data = true := by
  have hx : (resolve_repo_filter false env).exclude_private_repos = true := rfl
  refine ⟨hx, ?_⟩
  simp [repo_is_repo_type_excluded, hx, hpriv]

/-- Witness for C5: the environment explicitly sets
`EXCLUDE_PRIVATE_REPOS=false`, yet a private repository is excluded. -/
theorem c5_private_always_excluded_witness :
    (resolve_repo_filter false
      ⟨none, none, none, none, none, some "false", none, none, none⟩).exclude_private_repos = true
    ∧ repo_is_repo_type_excluded
        (resolve_repo_filter false
          ⟨none, none, none, none, none, some "false", none, none, none⟩)
        { isPrivate := true } = true :=
  c5_private_always_excluded
    ⟨none, none, none, none, none, some "false", none, none, none⟩
    { isPrivate := true } (by decide)

/-- The filter configuration on which the two exclusion predicates
disagree: only `exclude_public_repos` is set. -/
def c7_filter : RepositoryFilter :=
  { exclude_repos := [], exclude_langs := [], include_forked_repos := false,
    exclude_contrib_repos := false, exclude_archive_repos := false,
    exclude_private_repos := false, exclude_public_repos := true,
    manually_added_repos := [], only_included_repos := [] }

/-- The repository on which they disagree: `isPrivate` true (GraphQL
key), `private` absent/false (REST key). -/
def c7_repo : RepoData := { isPrivate := true }

/-- Claim C7: the two repository-type exclusion predicates diverge on
the `exclude_public_repos` switch: with only `exclude_public_repos`
set and a repository whose `isPrivate` is true but whose `private` key
is falsy, `StatsCollector.is_repo_type_excluded` excludes it while
`RepoStatsCollector.is_repo_type_excluded` keeps it. -/
theorem c7_exclusion_predicates_diverge :
    stats_is_repo_type_excluded c7_filter c7_repo = true
    ∧ repo_is_repo_type_excluded c7_filter c7_repo = false := by
  decide

/-! ## Result cache

Embedding of `api/deps/cache.py` on its default in-memory backend
(`REDIS_URL` unset): a `cachetools.TTLCache` mapping
`(username, endpoint)` to a value that expires `ttl` seconds after it
was written (an entry is readable while `now < expires`).  Python's
`None` is `PyVal.pyNone`; `cache_get` answers a *miss* whenever the
lookup produced `None`, whether the key was absent, expired, or bound
to `None` itself (`if value is not None`). -/

/-- Cache keys: `(username, endpoint)`. -/
abbrev CacheKey := String × String

/-- One TTLCache slot: the stored value and its expiry instant. -/
structure CacheEntry where
  value : PyVal
  expires : Nat
deriving DecidableEq, Repr

/-- The in-memory `_local_cache`. -/
abbrev LocalCache := List (CacheKey × CacheEntry)

/-- `TTLCache.__setitem__` at time `now`: bind the key, expiring at
`now + ttl`. -/
def ttl_cache_set (c : LocalCache) (k : CacheKey) (v : PyVal) (now ttl : Nat) : LocalCache :=
  (k, ⟨v, now + ttl⟩) :: c.filter (fun p => !(p.1 == k))

/-- `TTLCache.get(key)` at time `now`: the stored value while it has
not expired, else Python `None`. -/
def ttl_cache_lookup (c : LocalCache) (k : CacheKey) (now : Nat) : PyVal :=
  match c.find? (fun p => p.1 == k) with
  | some p => if now < p.2.expires then p.2.value else .pyNone
  | none => .pyNone

/-- `cache_set(username, endpoint, value)` on the memory backend,
at time `now` with TTL `ttl` (`_CACHE_TTL`). -/
def cache_set (c : LocalCache) (username endpoint : String) (value : PyVal)
    (now ttl : Nat) : LocalCache :=
  ttl_cache_set c (username, endpoint) value now ttl

/-- `cache_get(username, endpoint)` on the memory backend at time
`now`: `(hit, value)`, a hit exactly when the lookup is not `None`. -/
def cache_get (c : LocalCache) (username endpoint : String) (now : Nat) : Bool × PyVal :=
  let value := ttl_cache_lookup c (username, endpoint) now
  if value ≠ .pyNone then (true, value) else (false, .pyNone)

/-- Counterexample to C4 as stated: storing the value `None` (JSON
`null`) and reading it back immediately yields a miss, not
`(hit = true, None)`, because `cache_get` tests `value is not None`. -/
theorem c4_counterexample :
    cache_get (cache_set [] "alice" "stats" .pyNone 0 300) "alice" "stats" 0
      = (false, .pyNone)
    ∧ ((false, PyVal.pyNone) : Bool × PyVal) ≠ (true, .pyNone) := by
  decide

/-- Claim C4 (amended): for every key and every value other than
`None`, a `cache_set` followed at the same instant by `cache_get`
returns `(true, v)` whenever the TTL is positive; and once the TTL
has elapsed the same `cache_get` returns `(false, None)`. -/
theorem c4_cache_round_trip (c : LocalCache) (username endpoint : String)
    (v : PyVal) (now ttl : Nat) (hv : v ≠ .pyNone) :
    (0 < ttl →
      cache_get (cache_set c username endpoint v now ttl) username endpoint now = (true, v))
    ∧ (∀ t, now + ttl ≤ t →
      cache_get (cache_set c username endpoint v now ttl) username endpoint t
        = (false, .pyNone)) := by
  constructor
  · intro httl
    simp only [cache_get, cache_set, ttl_cache_set, ttl_cache_lookup]
    rw [List.find?_cons_of_pos _ (by simp)]
    simp [Nat.lt_add_of_pos_right httl, hv]
  · intro t ht
    simp only [cache_get, cache_set, ttl_cache_set, ttl_cache_lookup]
    rw [List.find?_cons_of_pos _ (by simp)]
    simp [Nat.not_lt.mpr ht]

/-- Witness for C4's amended theorem at key ("alice", "stats"),
value 42, write time 0, TTL 300, read times 0 and 300. -/
theorem c4_cache_round_trip_witness :
    cache_get (cache_set [] "alice" "stats" (.pyInt 42) 0 300) "alice" "stats" 0
      = (true, .pyInt 42)
    ∧ cache_get (cache_set [] "alice" "stats" (.pyInt 42) 0 300) "alice" "stats" 300
      = (false, .pyNone) :=
  ⟨(c4_cache_round_trip [] "alice" "stats" (.pyInt 42) 0 300 (by decide)).1 (by decide),
   (c4_cache_round_trip [] "alice" "stats" (.pyInt 42) 0 300 (by decide)).2 300 (by decide)⟩

/-! ## Partial-failure wrapper

Embedding of `PartialCollector` from `api/services/stats_service.py`.
An awaited collector call either returns a value or raises; `safe`
turns the raise into the default and records the warning
`"<label> unavailable: <exc>"`.  `warnings_payload` is the dict
fragment merged into the response: `some` of the warning list when
non-empty, `none` for the empty dict. -/

/-- The outcome of awaiting one collector coroutine. -/
abbrev CollectorCall (T : Type) := Except String T

/-- The `PartialCollector` state: the recorded warnings, in order. -/
structure PartialCollector where
  warnings : List String
deriving DecidableEq, Repr

/-- `PartialCollector()`. -/
def PartialCollector.empty : PartialCollector := ⟨[]⟩

/-- `await pc.safe(coro, default, label)`: the coroutine result, or
the default plus a recorded warning when it raised. -/
def PartialCollector.safe {T : Type} (pc : PartialCollector)
    (coro : CollectorCall T) (default : T) (label : String) : T × PartialCollector :=
  match coro with
  | .ok v => (v, pc)
  | .error exc => (default, ⟨pc.warnings ++ [label ++ " unavailable: " ++ exc]⟩)

/-- `pc.warnings_payload()`: `some warnings` models the fragment
containing the `warnings` key, `none` the empty dict. -/
def PartialCollector.warnings_payload (pc : PartialCollector) : Option (List String) :=
  if pc.warnings ≠ [] then some pc.warnings else none

/-- A request's sequence of wrapped calls: each entry is the call's
outcome, its default, and its label. -/
abbrev CallPlan (T : Type) := List (CollectorCall T × T × String)

/-- Did the awaited call raise? -/
def call_failed {T : Type} : CollectorCall T → Bool
  | .ok _ => false
  | .error _ => true

/-- Route a whole sequence of calls through one `PartialCollector`,
collecting the returned values. -/
def run_calls {T : Type} (pc : PartialCollector) : CallPlan T → List T × PartialCollector
  | [] => ([], pc)
  | (coro, default, label) :: rest =>
      let (v, pc') := pc.safe coro default label
      let (vs, pc'') := run_calls pc' rest
      (v :: vs, pc'')

/-- The warnings accumulated by a call plan. -/
def plan_warnings {T : Type} : CallPlan T → List String
  | [] => []
  | (coro, _, label) :: rest =>
      match coro with
      | .ok _ => plan_warnings rest
      | .error exc => (label ++ " unavailable: " ++ exc) :: plan_warnings rest

/-- `safe` appends exactly the failures' messages, in order. -/
theorem run_calls_warnings {T : Type} :
    ∀ (calls : CallPlan T) (pc : PartialCollector),
      (run_calls pc calls).2.warnings = pc.warnings ++ plan_warnings calls := by
  intro calls
  induction calls with
  | nil => intro pc; simp [run_calls, plan_warnings]
  | cons c rest ih =>
      intro pc
      obtain ⟨coro, default, label⟩ := c
      cases coro with
      | ok v => simp [run_calls, plan_warnings, PartialCollector.safe, ih]
      | error exc => simp [run_calls, plan_warnings, PartialCollector.safe, ih]

/-- A call plan produces no warning exactly when no call failed. -/
theorem plan_warnings_eq_nil {T : Type} :
    ∀ calls : CallPlan T, plan_warnings calls = [] ↔ ∀ c ∈ calls, call_failed c.1 = false := by
  intro calls
  induction calls with
  | nil => simp [plan_warnings]
  | cons c rest ih =>
      obtain ⟨coro, default, label⟩ := c
      cases coro with
      | ok v => simpa [plan_warnings, call_failed] using ih
      | error exc => simp [plan_warnings, call_failed]

/-- Claim C9: `safe` never propagates a failure (it returns the call's
value on success and the default on failure), and after routing any
sequence of calls through one `PartialCollector`, `warnings_payload`
is a fragment with a non-empty `warnings` list if and only if at least
one call fell back to its default; otherwise it is the empty dict. -/
theorem c9_partial_failure (calls : CallPlan PyVal) :
    (∀ (pc : PartialCollector) (v default : PyVal) (label : String),
        (pc.safe (.ok v) default label).1 = v
        ∧ ∀ exc, (pc.safe (.error exc) default label).1 = default)
    ∧ ((∃ warnings, (run_calls PartialCollector.empty calls).2.warnings_payload
          = some warnings ∧ warnings ≠ [])
        ↔ ∃ c ∈ calls, call_failed c.1 = true)
    ∧ ((run_calls PartialCollector.empty calls).2.warnings_payload = none
        ↔ ∀ c ∈ calls, call_failed c.1 = false) := by
  have hw : (run_calls PartialCollector.empty calls).2.warnings = plan_warnings calls := by
    simpa [PartialCollector.empty] using run_calls_warnings calls PartialCollector.empty
  refine ⟨fun pc v default label => ⟨rfl, fun exc => rfl⟩, ?_, ?_⟩
  · constructor
    · rintro ⟨warnings, hpay, hne⟩
      by_contra hno
      push_neg at hno
      have hnil : plan_warnings calls = [] := (plan_warnings_eq_nil calls).mpr (by
        intro c hc
        rcases Bool.eq_false_or_eq_true (call_failed c.1) with h | h
        · exact absurd h (hno c hc)
        · exact h)
      rw [PartialCollector.warnings_payload, hw, hnil] at hpay
      simp at hpay
    · rintro ⟨c, hc, hfail⟩
      have hne : plan_warnings calls ≠ [] := by
        intro hnil
        have := (plan_warnings_eq_nil calls).mp hnil c hc
        rw [hfail] at this
        simp at this
      refine ⟨plan_warnings calls, ?_, hne⟩
      rw [PartialCollector.warnings_payload, hw]
      simp [hne]
  · rw [PartialCollector.warnings_payload, hw]
    by_cases hnil : plan_warnings calls = []
    · have hall := (plan_warnings_eq_nil calls).mp hnil
      simp only [ne_eq, hnil, not_true_eq_false, if_false, true_iff]
      intro c hc
      exact hall c hc
    · simp only [ne_eq, hnil, not_false_eq_true, if_true]
      constructor
      · intro h
        exact absurd h (by simp)
      · intro hall
        exact absurd ((plan_warnings_eq_nil calls).mpr hall) hnil

/-- Witness for C9 on a two-call plan whose second call fails. -/
theorem c9_partial_failure_witness :
    ((PartialCollector.empty.safe (Except.ok (PyVal.pyInt 7)) (PyVal.pyInt 0)
        "stargazers").1 = PyVal.pyInt 7)
    ∧ (∃ warnings,
        (run_calls PartialCollector.empty
          [(Except.ok (PyVal.pyInt 7), PyVal.pyInt 0, "stargazers"),
           (Except.error "boom", PyVal.pyNone, "views")]).2.warnings_payload = some warnings
        ∧ warnings ≠ []) :=
  ⟨((c9_partial_failure []).1 PartialCollector.empty (PyVal.pyInt 7) (PyVal.pyInt 0)
      "stargazers").1,
   ((c9_partial_failure
      [(Except.ok (PyVal.pyInt 7), PyVal.pyInt 0, "stargazers"),
       (Except.error "boom", PyVal.pyNone, "views")]).2.1).mpr
     ⟨(Except.error "boom", PyVal.pyNone, "views"), by simp, rfl⟩⟩

/-! ## Persistent stores

Embedding of `src/db/snapshots.py` and `src/db/webhooks.py`.  A store
is its table contents, a row list in insertion order.  `json.dumps`
followed by `json.loads` is the identity on the `PyDict` model.
SQLite compares TEXT by bytes, which on the ASCII timestamps used
here is `py_str_lt`; `ORDER BY timestamp DESC LIMIT 1` returns a row
of maximal timestamp. -/

/-- One row of the `snapshots` table. -/
structure SnapshotRow where
  username : String
  timestamp : String
  data : PyDict
deriving DecidableEq, Repr

/-- The snapshot store: the `snapshots` table in insertion order. -/
structure SnapshotStore where
  rows : List SnapshotRow
deriving DecidableEq, Repr

/-- `save_snapshot(username, data, timestamp)`: INSERT with
`username.lower()` (`ts` is the passed or current-time timestamp). -/
def SnapshotStore.save_snapshot (st : SnapshotStore) (username : String)
    (data : PyDict) (ts : String) : SnapshotStore :=
  ⟨st.rows ++ [⟨py_lower username, ts, data⟩]⟩

/-- `ORDER BY timestamp DESC LIMIT 1` over a row list: some row of
maximal timestamp (ties broken arbitrarily by SQLite; this model
keeps the later row, and the theorems below never rely on ties). -/
def latest_row : List SnapshotRow → Option SnapshotRow
  | [] => none
  | r :: rest =>
      match latest_row rest with
      | none => some r
      | some b => if py_str_lt b.timestamp r.timestamp then some r else some b

/-- `get_latest_snapshot(username)`: filter by `username.lower()`,
take the row of maximal timestamp, parse its JSON and set
`entry["date"] = timestamp[:10]`. -/
def SnapshotStore.get_latest_snapshot (st : SnapshotStore) (username : String) :
    Option PyDict :=
  match latest_row (st.rows.filter (fun r => r.username == py_lower username)) with
  | none => none
  | some r => some (dict_set r.data "date" (.pyStr (py_slice_to 10 r.timestamp)))

/-- One row of the `webhooks` table. -/
structure WebhookRow where
  id : String
  username : String
  url : String
  conditions : PyDict
  created_at : String
deriving DecidableEq, Repr

/-- The webhook store: the `webhooks` table in insertion order. -/
structure WebhookStore where
  rows : List WebhookRow
deriving DecidableEq, Repr

/-- `create(username, url, conditions)`: INSERT with
`username.lower()` (`wid` is the generated UUID, `ca` the
`datetime('now')` column default) and the returned record. -/
def WebhookStore.create (st : WebhookStore) (wid username url : String)
    (conditions : PyDict) (ca : String) : WebhookStore × WebhookRow :=
  let row : WebhookRow := ⟨wid, py_lower username, url, conditions, ca⟩
  (⟨st.rows ++ [row]⟩, row)

/-- `list_by_user(username)`: filter by `username.lower()`, ordered by
`created_at` (stable sort on the insertion order). -/
def WebhookStore.list_by_user (st : WebhookStore) (username : String) : List WebhookRow :=
  (st.rows.filter (fun r => r.username == py_lower username)).mergeSort
    (fun a b => py_str_le a.created_at b.created_at)

/-- `Char.toLower` is idempotent: `toNat` of a valid `Char.ofNat`. -/
theorem char_toNat_ofNat_valid (n : Nat) (h : n.isValidChar) : (Char.ofNat n).toNat = n := by
  simp only [Char.ofNat, h, dif_pos, Char.ofNatAux, Char.toNat]
  rfl

/-- `Char.toLower` is idempotent. -/
theorem char_toLower_idem (c : Char) : c.toLower.toLower = c.toLower := by
  unfold Char.toLower
  by_cases h : c.toNat ≥ 65 ∧ c.toNat ≤ 90
  · rw [if_pos h]
    have hv : (c.toNat + 32).isValidChar := Or.inl (by omega)
    have ht : (Char.ofNat (c.toNat + 32)).toNat = c.toNat + 32 := char_toNat_ofNat_valid _ hv
    rw [ht, if_neg (by omega)]
  · rw [if_neg h, if_neg h]

/-- Lowercasing a string is idempotent. -/
theorem py_lower_idem (s : String) : py_lower (py_lower s) = py_lower s := by
  simp only [py_lower, List.map_map]
  congr 1
  exact List.map_congr_left fun c _ => char_toLower_idem c

/-- Appending a row whose timestamp strictly dominates every other
makes it the latest. -/
theorem latest_row_append_greatest (l : List SnapshotRow) (x : SnapshotRow)
    (h : ∀ r ∈ l, py_str_lt r.timestamp x.timestamp = true) :
    latest_row (l ++ [x]) = some x := by
  induction l with
  | nil => simp [latest_row]
  | cons r rest ih =>
      simp only [List.cons_append, latest_row, List.append_eq]
      rw [ih (fun r' h' => h r' (List.mem_cons_of_mem r h'))]
      have hr := h r (List.mem_cons_self r rest)
      have : py_str_lt x.timestamp r.timestamp = false := by
        simpa [py_str_lt] using lex_lt_asymm _ _ (by simpa [py_str_lt] using hr)
      simp [this]

/-- Claim C10: the stores lowercase every username they write or
query with.  (1) `save_snapshot` preserves "all stored usernames are
lowercase"; (2) `save_snapshot(u, d)` followed by
`get_latest_snapshot(u')` returns `d` enriched with its `date` field
whenever `u` and `u'` agree up to letter case and the new timestamp is
fresh; (3) `create` stores and returns a lowercased username and
preserves the lowercase invariant; (4) `list_by_user` cannot
distinguish usernames agreeing up to letter case. -/
theorem c10_stores_lowercase_usernames :
    (∀ (st : SnapshotStore) (u : String) (d : PyDict) (ts : String),
        (∀ r ∈ st.rows, py_lower r.username = r.username) →
        ∀ r ∈ (st.save_snapshot u d ts).rows, py_lower r.username = r.username)
    ∧ (∀ (st : SnapshotStore) (u u' : String) (d : PyDict) (ts : String),
        py_lower u = py_lower u' →
        (∀ r ∈ st.rows, r.username = py_lower u' → py_str_lt r.timestamp ts = true) →
        (st.save_snapshot u d ts).get_latest_snapshot u'
          = some (dict_set d "date" (.pyStr (py_slice_to 10 ts))))
    ∧ (∀ (st : WebhookStore) (wid u url : String) (c : PyDict) (ca : String),
        (st.create wid u url c ca).2.username = py_lower u
        ∧ ((∀ r ∈ st.rows, py_lower r.username = r.username) →
            ∀ r ∈ (st.create wid u url c ca).1.rows, py_lower r.username = r.username))
    ∧ (∀ (st : WebhookStore) (u u' : String), py_lower u = py_lower u' →
        st.list_by_user u = st.list_by_user u') := by
  refine ⟨?_, ?_, ?_, ?_⟩
  · intro st u d ts hinv r hr
    rcases List.mem_append.mp hr with hr | hr
    · exact hinv r hr
    · rcases List.mem_singleton.mp hr with rfl
      exact py_lower_idem u
  · intro st u u' d ts huu hfresh
    simp only [SnapshotStore.get_latest_snapshot, SnapshotStore.save_snapshot,
      List.filter_append]
    have hpass : (List.filter (fun r => r.username == py_lower u')
        [(⟨py_lower u, ts, d⟩ : SnapshotRow)]) = [⟨py_lower u, ts, d⟩] := by
      simp [List.filter, huu]
    rw [hpass, latest_row_append_greatest _ _ (fun r hr => by
      have hmem := List.mem_filter.mp hr
      exact hfresh r hmem.1 (by simpa using hmem.2))]
  · intro st wid u url c ca
    refine ⟨rfl, fun hinv r hr => ?_⟩
    rcases List.mem_append.mp hr with hr | hr
    · exact hinv r hr
    · rcases List.mem_singleton.mp hr with rfl
      exact py_lower_idem u
  · intro st u u' h
    rw [WebhookStore.list_by_user, WebhookStore.list_by_user, h]

/-- Witness for C10 at concrete stores, with usernames differing only
in case. -/
theorem c10_stores_lowercase_usernames_witness :
    (∀ r ∈ ((SnapshotStore.mk []).save_snapshot "Alice" [("total_stars", .pyInt 3)]
        "2026-01-01T00:00:00+00:00").rows, py_lower r.username = r.username)
    ∧ ((SnapshotStore.mk []).save_snapshot "Alice" [("total_stars", .pyInt 3)]
        "2026-01-01T00:00:00+00:00").get_latest_snapshot "ALICE"
        = some [("total_stars", .pyInt 3), ("date", .pyStr "2026-01-01")]
    ∧ ((WebhookStore.mk []).create "w1" "Alice" "https://cb.example" [] "t").2.username
        = "alice"
    ∧ (WebhookStore.mk [⟨"w1", "bob", "https://cb.example", [], "t"⟩]).list_by_user "Bob"
        = (WebhookStore.mk [⟨"w1", "bob", "https://cb.example", [], "t"⟩]).list_by_user "BOB" :=
  ⟨c10_stores_lowercase_usernames.1 (SnapshotStore.mk []) "Alice" [("total_stars", .pyInt 3)]
      "2026-01-01T00:00:00+00:00" (by simp),
   by
    have h := c10_stores_lowercase_usernames.2.1 (SnapshotStore.mk []) "Alice" "ALICE"
      [("total_stars", .pyInt 3)] "2026-01-01T00:00:00+00:00" (by decide) (by simp)
    rw [h]
    rfl,
   by
    have h := (c10_stores_lowercase_usernames.2.2.1 (WebhookStore.mk []) "w1" "Alice"
      "https://cb.example" [] "t").1
    rw [h]
    decide,
   c10_stores_lowercase_usernames.2.2.2
      (WebhookStore.mk [⟨"w1", "bob", "https://cb.example", [], "t"⟩]) "Bob" "BOB" (by decide)⟩

/-! ## Rate-limit governor of the GitHub client

Modelled from the spec: the shipped `src/core/github_client.py`
contains `query` / `query_rest` but not the rate-limit machinery that
the rest of the repository uses from that module —
`api/routes/health.py` and `api/routes/users.py` import
`rate_limit_state` (and `github_breaker`) from it, and
`test/api/test_health.py` instantiates its `RateLimitState` with
`remaining` / `limit` / `reset` fields — so that part of the module is
missing from the sources.  The governor is therefore modelled from
§4.1 of the spec: every response updates the global snapshot from the
`X-RateLimit-*` headers, and before dispatch, if `remaining < 10` and
`reset_epoch > now`, the caller sleeps `min(reset - now, 60)` seconds. -/

/-- The global rate-limit snapshot (fields per the test suite's use of
`RateLimitState`; `none` until first observed). -/
structure RateLimitState where
  remaining : Option Nat
  limit : Option Nat
  reset : Option Nat
deriving DecidableEq, Repr

/-- The `X-RateLimit-*` headers of one response. -/
structure RateLimitHeaders where
  x_ratelimit_remaining : Option Nat
  x_ratelimit_limit : Option Nat
  x_ratelimit_reset : Option Nat
deriving DecidableEq, Repr

/-- Modelled from the spec: every response updates the snapshot from
whichever `X-RateLimit-*` headers are present. -/
def observe_headers (st : RateLimitState) (h : RateLimitHeaders) : RateLimitState :=
  { remaining := h.x_ratelimit_remaining <|> st.remaining
    limit := h.x_ratelimit_limit <|> st.limit
    reset := h.x_ratelimit_reset <|> st.reset }

/-- Modelled from the spec: the pre-dispatch sleep, when mandated —
`min(reset - now, 60)` seconds if `remaining < 10` and `reset > now`,
nothing otherwise (including when the snapshot is unobserved). -/
def governor_sleep (st : RateLimitState) (now : Nat) : Option Nat :=
  match st.remaining, st.reset with
  | some remaining, some reset =>
      if remaining < 10 ∧ now < reset then some (min (reset - now) 60) else none
  | _, _ => none

/-- The externally visible actions of one outbound call. -/
inductive ClientEvent where
  | sleep (seconds : Nat)
  | dispatch
deriving DecidableEq, Repr

/-- Modelled from the spec: the action trace of one governed call —
the mandated sleep, if any, strictly before the dispatch. -/
def governed_call_events (st : RateLimitState) (now : Nat) : List ClientEvent :=
  match governor_sleep st now with
  | some secs => [.sleep secs, .dispatch]
  | none => [.dispatch]

/-- Modelled from the spec: `GitHubClient.query` dispatches one
governed GraphQL call. -/
def query_events (st : RateLimitState) (now : Nat) : List ClientEvent :=
  governed_call_events st now

/-- Modelled from the spec: `GitHubClient.query_rest` dispatches a
governed REST call (each attempt of its 202-retry loop is governed
the same way). -/
def query_rest_events (st : RateLimitState) (now : Nat) : List ClientEvent :=
  governed_call_events st now

/-- Claim C2: whenever the observed snapshot has `remaining < 10` and
`reset > now`, neither `query` nor `query_rest` dispatches
immediately: the trace is exactly a sleep of `min(reset - now, 60)`
seconds followed by the dispatch, so the first action is never the
dispatch. -/
theorem c2_rate_limit_governor (st : RateLimitState) (now remaining reset : Nat)
    (hrem : st.remaining = some remaining) (hres : st.reset = some reset)
    (hlow : remaining < 10) (hfut : now < reset) :
    query_events st now = [.sleep (min (reset - now) 60), .dispatch]
    ∧ query_rest_events st now = [.sleep (min (reset - now) 60), .dispatch]
    ∧ (query_events st now).head? ≠ some .dispatch := by
  have hg : governor_sleep st now = some (min (reset - now) 60) := by
    rw [governor_sleep, hrem, hres]
    simp [hlow, hfut]
  refine ⟨?_, ?_, ?_⟩ <;>
    simp [query_events, query_rest_events, governed_call_events, hg]

/-- Witness for C2: snapshot with 5 remaining calls and a reset 30
seconds in the future, observed at time 100. -/
theorem c2_rate_limit_governor_witness :
    query_events ⟨some 5, some 5000, some 130⟩ 100
      = [.sleep 30, .dispatch]
    ∧ (query_events ⟨some 5, some 5000, some 130⟩ 100).head?
      ≠ some .dispatch :=
  ⟨(c2_rate_limit_governor ⟨some 5, some 5000, some 130⟩ 100 5 130 rfl rfl
      (by decide) (by decide)).1,
   (c2_rate_limit_governor ⟨some 5, some 5000, some 130⟩ 100 5 130 rfl rfl
      (by decide) (by decide)).2.2⟩

end LeoGitStats
